import Mathlib

/-!
Verification of the execution and position-management engine of the
callsbot repository. Python floats are modelled as exact rationals, the
SQLite-backed idempotency store as explicit lists, and the async control
flow of the executor as pure functions producing event traces. Every
definition is translated from the source files under `src/exec/`.
-/

namespace Exec

/-- Order lifecycle states persisted by `IdempotencyStore.record_transition`
(src/exec/idempotency.py); the executor writes QUOTED, SIGNED, CONFIRMED,
FAILED and CLOSED. -/
inductive OrderState
  | quoted
  | signed
  | confirmed
  | failed
  | closed
deriving DecidableEq, Repr

/-- `PositionStatus` enum from src/exec/models.py. -/
inductive PositionStatus
  | active
  | stopped
  | completed
deriving DecidableEq, Repr

/-- `ExitReason` enum from src/exec/models.py. Its members are exactly
STOP_LOSS, TIME_STOP, TRAILING_STOP, PROFIT_TAKE, MANUAL and RUG_DETECTED;
there is no DISASTER member. -/
inductive ExitReason
  | stop_loss
  | time_stop
  | trailing_stop
  | profit_take
  | manual
  | rug_detected
deriving DecidableEq, Repr

/-- The `rugcheck_score` string of a position, classified by the branches of
`RiskManager.calculate_stop_loss_price` (src/exec/risk_manager.py lines
78-84): the literal strings "pending" and "n/a" are tested first; any other
string is fed to `float(...)`, which either yields a number or raises, in
which case the code substitutes the score 10.0. -/
inductive RugScore
  | pending
  | na
  | num (s : ℚ)
  | malformed
deriving DecidableEq, Repr

/-- Result of the three lowercase substring tests that
`calculate_stop_loss_price` performs on `position.rugcheck_risks`:
whether "honeypot", "blacklist" and "high_tax" occur in the string. -/
structure RiskFlags where
  honeypot : Bool
  blacklist : Bool
  high_tax : Bool
deriving DecidableEq, Repr

/-- `Position` dataclass from src/exec/models.py, restricted to the fields
read or written by the risk manager and the sell path. Token amounts and
prices are rationals; `tiers_hit` is the set of integer multiples already
taken (modelled as a list with membership). -/
structure Position where
  entry_price : ℚ
  entry_time : ℚ
  size_usd : ℚ
  size_tokens : ℚ
  rugcheck_score : RugScore
  rugcheck_risks : RiskFlags
  rugcheck_lp_locked : Bool
  remaining_tokens : ℚ
  realized_pnl : ℚ
  status : PositionStatus
  stop_loss_price : ℚ
  is_derisked : Bool
  derisked_at_price : ℚ
  derisked_amount : ℚ
  runner_tokens : ℚ
  runner_peak_price : ℚ
  peak_price : ℚ
  tiers_hit : List ℤ
  last_partial_sell_time : ℚ
deriving DecidableEq, Repr

/-- `PortfolioStats` dataclass from src/exec/models.py. -/
structure PortfolioStats where
  total_trades : ℕ
  winning_trades : ℕ
  losing_trades : ℕ
  daily_realized_pnl : ℚ
  consecutive_losses : ℕ
  active_positions : ℕ
  last_reset_time : ℚ
  trading_halted_until : ℚ
deriving DecidableEq, Repr

/-- The `ExecutorSettings` fields consumed by the risk manager
(src/exec/config.py). `profit_tiers` and `trailing_zones` hold the parse
result of the corresponding CSV strings; a CSV that fails to parse is
represented by the empty list, exactly as the try/except in the source
yields an empty tier list or leaves the default trailing percentage. -/
structure ExecutorSettings where
  stop_loss_base_pct : ℚ
  daily_loss_limit_pct : ℚ
  consecutive_loss_limit : ℕ
  disaster_stop_pct : ℚ
  time_stop_minutes : ℚ
  time_stop_profit_target_pct : ℚ
  derisking_multiple : ℚ
  derisking_sell_pct : ℚ
  runner_trailing_stop_pct : ℚ
  profit_tiers : List (ℚ × ℚ)
  trailing_zones : List (ℚ × ℚ)
  min_runner_pct : ℚ
  partial_sell_cooldown_sec : ℚ
  max_concurrent_positions : ℕ
deriving DecidableEq, Repr

/-- Python `int(x)` on a float: truncation toward zero. -/
def pyInt (q : ℚ) : ℤ :=
  q.num.sign * ((q.num.natAbs / q.den : ℕ) : ℤ)

/-- The epsilon `1e-12` used at stop boundaries in
`RiskManager.should_exit_position`. -/
def eps : ℚ := 1 / 10 ^ 12

/-! ### calculate_stop_loss_price (src/exec/risk_manager.py lines 71-109) -/

/-- The numeric-score branch of `calculate_stop_loss_price`: the chain
`score <= 3` / `elif score <= 6` / `elif score >= 8` with default 1.0. -/
def score_branch (score : ℚ) : ℚ :=
  if score ≤ 3 then 14/10
  else if score ≤ 6 then 12/10
  else if 8 ≤ score then 8/10
  else 1

/-- Risk multiplier derived from the rugcheck score string: "pending" and
"n/a" give 0.7; otherwise `float(...)` is attempted and a parse failure is
replaced by the score 10.0 before entering the numeric branch. -/
def base_score_multiplier : RugScore → ℚ
  | .pending => 7/10
  | .na => 7/10
  | .num s => score_branch s
  | .malformed => score_branch 10

/-- Risk multiplier after the flag overrides: "honeypot" forces 2.0,
else "blacklist" forces 1.8, else "high_tax" forces 1.3, else the
score-derived multiplier stands. -/
def flag_multiplier (p : Position) : ℚ :=
  if p.rugcheck_risks.honeypot then 2
  else if p.rugcheck_risks.blacklist then 18/10
  else if p.rugcheck_risks.high_tax then 13/10
  else base_score_multiplier p.rugcheck_score

/-- Final risk multiplier: a further factor 1.2 when the LP is not locked. -/
def risk_multiplier (p : Position) : ℚ :=
  if p.rugcheck_lp_locked then flag_multiplier p
  else flag_multiplier p * (12/10)

/-- `RiskManager.calculate_stop_loss_price`: clamp the adjusted stop
percentage to [0.10, 0.90] and apply it below the entry price. -/
def calculate_stop_loss_price (st : ExecutorSettings) (p : Position) : ℚ :=
  let adjusted_stop_pct := max (1/10) (min (9/10) (st.stop_loss_base_pct * risk_multiplier p))
  p.entry_price * (1 - adjusted_stop_pct)

/-! ### get_time_stop_limit (src/exec/risk_manager.py lines 111-124) -/

/-- `RiskManager.get_time_stop_limit`: risk-adjusted time stop in minutes. -/
def get_time_stop_limit (st : ExecutorSettings) (p : Position) : ℚ :=
  if p.rugcheck_score = RugScore.pending then st.time_stop_minutes * (5/10)
  else if p.rugcheck_risks.honeypot then st.time_stop_minutes * (3/10)
  else if !p.rugcheck_lp_locked then st.time_stop_minutes * (7/10)
  else st.time_stop_minutes

/-! ### Portfolio bookkeeping (src/exec/risk_manager.py, models.py) -/

/-- Reasons returned by `RiskManager.can_open_position`; the source returns
formatted strings, modelled here as an enumeration. -/
inductive AdmitReason
  | trading_halted
  | daily_loss_limit
  | consecutive_loss
  | max_positions
  | low_quality
  | ok
deriving DecidableEq, Repr

/-- `PortfolioStats.should_reset_daily`: at least 24 hours since the last
reset. -/
def should_reset_daily (now : ℚ) (stats : PortfolioStats) : Bool :=
  decide (24 ≤ (now - stats.last_reset_time) / 3600)

/-- `PortfolioStats.reset_daily_stats`. -/
def reset_daily_stats (now : ℚ) (stats : PortfolioStats) : PortfolioStats :=
  { stats with daily_realized_pnl := 0, consecutive_losses := 0, last_reset_time := now }

/-- `PortfolioStats.is_trading_halted`: the current time is before
`trading_halted_until`. -/
def is_trading_halted (now : ℚ) (stats : PortfolioStats) : Bool :=
  decide (now < stats.trading_halted_until)

/-- `RiskManager._halt_trading`: set `trading_halted_until` a number of
hours into the future. -/
def halt_trading (now hours : ℚ) (stats : PortfolioStats) : PortfolioStats :=
  { stats with trading_halted_until := now + hours * 3600 }

/-- `RiskManager.record_trade_result`: strictly positive P&L counts as a
win and resets the consecutive-loss streak; any other P&L (including zero)
counts as a loss and extends the streak. -/
def record_trade_result (stats : PortfolioStats) (trade_result_pnl : ℚ) : PortfolioStats :=
  let s := { stats with
              total_trades := stats.total_trades + 1,
              daily_realized_pnl := stats.daily_realized_pnl + trade_result_pnl }
  if 0 < trade_result_pnl then
    { s with winning_trades := s.winning_trades + 1, consecutive_losses := 0 }
  else
    { s with losing_trades := s.losing_trades + 1,
             consecutive_losses := s.consecutive_losses + 1 }

/-- `RiskManager.can_open_position`, with the wall clock, the estimated
account value and the quality score of the incoming signal passed
explicitly. Returns the updated stats (daily reset and halts mutate them)
together with the decision and its reason. -/
def can_open_position (st : ExecutorSettings) (now account_value quality_score : ℚ)
    (stats0 : PortfolioStats) : PortfolioStats × Bool × AdmitReason :=
  let stats := if should_reset_daily now stats0 then reset_daily_stats now stats0 else stats0
  if is_trading_halted now stats then (stats, false, .trading_halted)
  else
    let daily_loss_limit := account_value * st.daily_loss_limit_pct
    if stats.daily_realized_pnl < -daily_loss_limit then
      (halt_trading now 6 stats, false, .daily_loss_limit)
    else if st.consecutive_loss_limit ≤ stats.consecutive_losses then
      (halt_trading now 2 stats, false, .consecutive_loss)
    else if st.max_concurrent_positions ≤ stats.active_positions then
      (stats, false, .max_positions)
    else if quality_score < 6/10 then (stats, false, .low_quality)
    else (stats, true, .ok)

/-- A run of `n` exactly break-even trades recorded through
`record_trade_result`. -/
def breakevens : ℕ → PortfolioStats → PortfolioStats
  | 0, stats => stats
  | n + 1, stats => record_trade_result (breakevens n stats) 0

/-! ### should_exit_position (src/exec/risk_manager.py lines 126-221) -/

/-- One step of the stable sort by the first component that models the
Python `list.sort(key=lambda x: x[0])` applied to the parsed tier and zone
lists: insert after all elements with a smaller-or-equal key. -/
def insert_by_multiple (a : ℚ × ℚ) : List (ℚ × ℚ) → List (ℚ × ℚ)
  | [] => [a]
  | b :: rest => if b.1 ≤ a.1 then b :: insert_by_multiple a rest else a :: b :: rest

/-- Stable sort by the first component. -/
def sort_by_multiple (l : List (ℚ × ℚ)) : List (ℚ × ℚ) :=
  l.foldl (fun acc a => insert_by_multiple a acc) []

/-- The trailing-zone scan of `should_exit_position`: starting from the
default `runner_trailing_stop_pct`, each zone whose threshold is reached
overwrites the trailing percentage, so the last reached zone of the sorted
list wins. -/
def trail_pct_scan (default_pct current_multiple : ℚ) (zones : List (ℚ × ℚ)) : ℚ :=
  zones.foldl (fun acc z => if z.1 ≤ current_multiple then z.2 else acc) default_pct

/-- The tier scan of `should_exit_position`: find the first sorted tier
whose integer multiple is not yet in `tiers_hit` and whose multiple is
reached; cap the sale so that `1 - sell_pct` does not fall below
`min_runner_pct`; a tier whose capped fraction is zero is passed over
without being marked. -/
def find_tier (st : ExecutorSettings) (tiers_hit : List ℤ) (current_multiple : ℚ) :
    List (ℚ × ℚ) → Option (ℤ × ℚ)
  | [] => none
  | (multiple, sell_pct) :: rest =>
    let multiple_int := pyInt multiple
    if multiple_int ∉ tiers_hit ∧ multiple ≤ current_multiple then
      let projected_remaining_pct := 1 - sell_pct
      let capped := if projected_remaining_pct < st.min_runner_pct
                    then max 0 (1 - st.min_runner_pct) else sell_pct
      if 0 < capped then some (multiple_int, capped)
      else find_tier st tiers_hit current_multiple rest
    else find_tier st tiers_hit current_multiple rest

/-- Runner-peak update of the trailing-stop branch (src/exec/risk_manager.py
lines 193-198): initialise from the overall peak when not yet set, then
ratchet up to the current price. -/
def runner_peak_update (p : Position) (current_price : ℚ) : ℚ :=
  let peak0 := if p.runner_peak_price ≤ 0
               then max p.peak_price p.entry_price else p.runner_peak_price
  if peak0 < current_price then current_price else peak0

/-- Trailing percentage for the current multiple: the zone scan over the
sorted zone list, defaulting to `runner_trailing_stop_pct`. -/
def runner_trail_pct (st : ExecutorSettings) (current_multiple : ℚ) : ℚ :=
  trail_pct_scan st.runner_trailing_stop_pct current_multiple
    (sort_by_multiple st.trailing_zones)

/-- `RiskManager.should_exit_position`, with the wall clock passed as
`now`. Returns the mutated position (tier bookkeeping and runner-peak
tracking are in-place updates in the source) together with the decision
triple (should_exit, exit_reason, sell_percentage). -/
def should_exit_position (st : ExecutorSettings) (now : ℚ) (p : Position)
    (current_price : ℚ) : Position × (Bool × ExitReason × ℚ) :=
  if p.status ≠ PositionStatus.active then (p, (false, .manual, 0))
  else
    let current_multiple := current_price / p.entry_price
    let minutes_held := (now - p.entry_time) / 60
    let disaster_stop_price := p.entry_price * (1 - st.disaster_stop_pct)
    if current_price ≤ disaster_stop_price + eps then (p, (true, .stop_loss, 1))
    else if p.stop_loss_price ≠ 0 ∧ 0 < p.stop_loss_price ∧
        current_price ≤ p.stop_loss_price then
      (p, (true, .stop_loss, 1))
    else
      let profit_target := 1 + st.time_stop_profit_target_pct
      if get_time_stop_limit st p ≤ minutes_held ∧ current_multiple < profit_target then
        (p, (true, .time_stop, 1))
      else if ¬p.is_derisked ∧ st.derisking_multiple ≤ current_multiple then
        (p, (true, .profit_take, st.derisking_sell_pct))
      else
        let tier_step :=
          if p.is_derisked ∧ 0 < p.remaining_tokens ∧
              st.partial_sell_cooldown_sec ≤ now - p.last_partial_sell_time then
            find_tier st p.tiers_hit current_multiple (sort_by_multiple st.profit_tiers)
          else none
        match tier_step with
        | some (multiple_int, sell_pct) =>
          ({ p with tiers_hit := multiple_int :: p.tiers_hit,
                    last_partial_sell_time := now },
           (true, .profit_take, sell_pct))
        | none =>
          if p.is_derisked then
            let peak := runner_peak_update p current_price
            let trailing_stop_price := peak * (1 - runner_trail_pct st current_multiple)
            let final_stop_price := max trailing_stop_price p.entry_price
            let p2 := { p with runner_peak_price := peak }
            if current_price ≤ final_stop_price + eps then (p2, (true, .trailing_stop, 1))
            else (p2, (false, .manual, 0))
          else (p, (false, .manual, 0))

/-! ### _execute_sell (src/exec/executor.py lines 506-632) -/

/-- Environment of one `_execute_sell` call: whether a sell quote was
obtained (directly or via the non-direct fallback), whether the swap
transaction was built, whether the submission returned a signature, and
the USD value realised by the swap. -/
structure SellEnv where
  quote_ok : Bool
  swap_tx_ok : Bool
  signature_ok : Bool
  sol_value_usd : ℚ
deriving DecidableEq, Repr

/-- `RiskManager.mark_position_derisked`: flip the de-risked flag, start
runner tracking at the current price and move the stop to breakeven. -/
def mark_position_derisked (p : Position) (current_price amount_sold : ℚ) : Position :=
  { p with is_derisked := true, derisked_at_price := current_price,
           derisked_amount := amount_sold, runner_tokens := p.remaining_tokens,
           runner_peak_price := current_price, stop_loss_price := p.entry_price }

/-- `MemecoinExecutor._execute_sell`, reduced to the state it mutates: the
position and the list of exit fractions recorded through
`IdempotencyStore.record_exit`. A full exit (fraction exactly 1.0) marks
the position completed and records the trade result but appends no exit
fraction; only the partial branch calls `record_exit`. -/
def execute_sell (env : SellEnv) (p : Position) (exits : List ℚ)
    (sell_percentage : ℚ) (exit_reason : ExitReason) (current_price : ℚ) :
    Position × List ℚ :=
  let tokens_to_sell := p.remaining_tokens * sell_percentage
  if pyInt tokens_to_sell < 1 ∧ sell_percentage < 1 then (p, exits)
  else
    let tokens_sold : ℚ := (pyInt tokens_to_sell : ℚ)
    if ¬env.quote_ok then (p, exits)
    else if ¬env.swap_tx_ok then (p, exits)
    else if ¬env.signature_ok then (p, exits)
    else
      let p1 := { p with remaining_tokens := p.remaining_tokens - tokens_sold }
      if sell_percentage = 1 then
        ({ p1 with status := PositionStatus.completed,
                   realized_pnl := env.sol_value_usd - p1.size_usd }, exits)
      else
        let p2 := if exit_reason = ExitReason.profit_take ∧ ¬p1.is_derisked
                  then mark_position_derisked p1 current_price tokens_sold else p1
        ({ p2 with realized_pnl := p2.realized_pnl +
                    (env.sol_value_usd - p2.size_usd * sell_percentage) },
         exits ++ [sell_percentage])

/-- One tick of `MemecoinExecutor._manage_position` for a given price:
update the peak, evaluate the exit decision and, when it fires, run the
sell. -/
def manage_tick (st : ExecutorSettings) (env : SellEnv) (now : ℚ)
    (p : Position) (exits : List ℚ) (current_price : ℚ) : Position × List ℚ :=
  let p0 := if p.peak_price < current_price
            then { p with peak_price := current_price } else p
  let r := should_exit_position st now p0 current_price
  if r.2.1 then execute_sell env r.1 exits r.2.2.2 r.2.2.1 current_price else (r.1, exits)

/-- Sum of the recorded exit fractions of a position. -/
def exit_sum (exits : List ℚ) : ℚ := exits.foldl (· + ·) 0

/-! ### The signal loop (src/exec/executor.py lines 137-167, idempotency.py) -/

/-- A queue delivery: the stream message id together with the derived
signal id (`signal.signal_id`, or `ca:first_seen_ts` when absent). Signal
ids are abstracted to naturals. -/
structure Delivery where
  msg_id : ℕ
  signal_id : ℕ
deriving DecidableEq, Repr

/-- Observable actions of the signal loop. -/
inductive LoopEvent
  | processed (sig : ℕ)
  | marked (sig : ℕ)
  | acked (msg : ℕ)
deriving DecidableEq, Repr

/-- One iteration of the per-entry body of
`MemecoinExecutor._signal_processor`: when `has_processed` answers true the
message is only acked; otherwise `_process_signal` runs, `mark_processed`
durably records the signal id, and the message is acked. The store is the
set of signal ids in the `processed_signals` table. -/
def signal_step (store : List ℕ) (d : Delivery) : List ℕ × List LoopEvent :=
  if d.signal_id ∈ store then (store, [.acked d.msg_id])
  else (d.signal_id :: store,
        [.processed d.signal_id, .marked d.signal_id, .acked d.msg_id])

/-- The signal loop over a sequence of deliveries. -/
def signal_loop (store : List ℕ) : List Delivery → List ℕ × List LoopEvent
  | [] => (store, [])
  | d :: ds =>
    let r := signal_step store d
    let rest := signal_loop r.1 ds
    (rest.1, r.2 ++ rest.2)

/-- Number of `_process_signal` invocations for a given signal id in an
event trace. -/
def processed_count (events : List LoopEvent) (sig : ℕ) : ℕ :=
  events.count (.processed sig)

/-- Number of queue acks in an event trace. -/
def acked_count (events : List LoopEvent) : ℕ :=
  (events.filter fun e => match e with | .acked _ => true | _ => false).length

/-! ### The buy path (src/exec/executor.py lines 252-391, metrics.py) -/

/-- Environment of one `_execute_buy` call: the outcomes of the external
interactions, and the readings of the `LatencyTracker` wall clock. `gate_ms`
is `hot_path_ms_so_far()` at the pre-submit latency gate; `submit_ms` is
`tx_submitted_ts - signal_received_ts` in milliseconds as observed by
`mark_submitted`. -/
structure BuyEnv where
  sol_usd_ok : Bool
  quote_direct_ok : Bool
  quote_fallback_ok : Bool
  quote_valid : Bool
  swap_tx_ok : Bool
  gate_ms : ℚ
  signature_ok : Bool
  submit_ms : ℚ
deriving DecidableEq, Repr

/-- Observable actions of the buy path and the enclosing signal-loop entry. -/
inductive BuyEvent
  | quote_requested
  | transition (s : OrderState)
  | sign
  | submit
  | hot_path_observed (ms : ℚ)
  | aborted_latency_inc
  | position_opened
  | mark_processed
  | ack
deriving DecidableEq, Repr

/-- `MemecoinExecutor._execute_buy` as the trace of events it emits, in
program order: quote request, QUOTED transition after a successful quote,
quote validation, swap build, the pre-submit latency gate (abort counter
plus FAILED transition when the hot path exceeds 100 ms), signing followed
by the SIGNED transition, submission with the hot-path histogram
observation, and on a returned signature the position creation and the
CONFIRMED transition. Every failure branch simply returns. -/
def execute_buy (env : BuyEnv) : List BuyEvent :=
  if ¬env.sol_usd_ok then []
  else
    [.quote_requested] ++
    (if ¬(env.quote_direct_ok ∨ env.quote_fallback_ok) then []
     else
       [.transition .quoted] ++
       (if ¬env.quote_valid then []
        else if ¬env.swap_tx_ok then []
        else if 100 < env.gate_ms then [.aborted_latency_inc, .transition .failed]
        else
          [.sign, .transition .signed, .submit, .hot_path_observed env.submit_ms] ++
          (if env.signature_ok then [.position_opened, .transition .confirmed]
           else [])))

/-- A signal-loop entry around a fresh signal: `_process_signal` (whose
buy path emits `execute_buy env`) followed unconditionally by
`mark_processed` and the queue ack (src/exec/executor.py lines 157-160). -/
def process_entry (env : BuyEnv) : List BuyEvent :=
  execute_buy env ++ [.mark_processed, .ack]

/-- `a` occurs strictly before the first occurrence of `b` in the trace. -/
def event_before (a b : BuyEvent) : List BuyEvent → Bool
  | [] => false
  | e :: tr => if e = a then true else if e = b then false else event_before a b tr

/-! ### Shared concrete fixtures -/

/-- Risk flags with none of the three substrings present. -/
def flags_clear : RiskFlags := { honeypot := false, blacklist := false, high_tax := false }

/-- A concrete settings record (base stop 50 percent, disaster stop 80
percent, two profit tiers of 60 percent each, three trailing zones, a
7 percent minimum runner and no partial-sell cooldown). -/
def st_fix : ExecutorSettings :=
  { stop_loss_base_pct := 1/2
    daily_loss_limit_pct := 4/100
    consecutive_loss_limit := 4
    disaster_stop_pct := 8/10
    time_stop_minutes := 60
    time_stop_profit_target_pct := 1/2
    derisking_multiple := 3
    derisking_sell_pct := 33/100
    runner_trailing_stop_pct := 3/10
    profit_tiers := [(5, 6/10), (8, 6/10)]
    trailing_zones := [(0, 3/10), (5, 25/100), (10, 22/100)]
    min_runner_pct := 7/100
    partial_sell_cooldown_sec := 0
    max_concurrent_positions := 8 }

/-- A concrete fresh active position: entry at 1 USD, 100 tokens, stop at
0.50, rugcheck score 5, clean flags, LP locked. -/
def pos_fix : Position :=
  { entry_price := 1
    entry_time := 0
    size_usd := 10
    size_tokens := 100
    rugcheck_score := .num 5
    rugcheck_risks := flags_clear
    rugcheck_lp_locked := true
    remaining_tokens := 100
    realized_pnl := 0
    status := .active
    stop_loss_price := 1/2
    is_derisked := false
    derisked_at_price := 0
    derisked_amount := 0
    runner_tokens := 0
    runner_peak_price := 0
    peak_price := 1
    tiers_hit := []
    last_partial_sell_time := 0 }

/-- A sell environment in which the quote, the swap build and the
submission all succeed. -/
def sell_env_ok : SellEnv :=
  { quote_ok := true, swap_tx_ok := true, signature_ok := true, sol_value_usd := 50 }

/-- A portfolio with no history and no halt. -/
def stats_zero : PortfolioStats :=
  { total_trades := 0, winning_trades := 0, losing_trades := 0,
    daily_realized_pnl := 0, consecutive_losses := 0, active_positions := 0,
    last_reset_time := 0, trading_halted_until := 0 }

/-- A buy environment in which every external interaction succeeds, the
pre-submit gate reads 90 ms and the hot-path clock reads 110 ms at
submission. -/
def buy_env_fast : BuyEnv :=
  { sol_usd_ok := true
    quote_direct_ok := true
    quote_fallback_ok := false
    quote_valid := true
    swap_tx_ok := true
    gate_ms := 90
    signature_ok := true
    submit_ms := 110 }

/-- A buy environment in which neither the direct nor the fallback route
yields a quote. -/
def buy_env_no_quote : BuyEnv :=
  { buy_env_fast with quote_direct_ok := false, quote_fallback_ok := false }

/-- A buy environment in which the pre-submit gate reads 150 ms. -/
def buy_env_slow : BuyEnv :=
  { buy_env_fast with gate_ms := 150 }

/-- Settings for the C6 scenario: a single 80 percent tier at 5x and a 15
percent minimum runner. -/
def st_c6 : ExecutorSettings :=
  { st_fix with profit_tiers := [(5, 4/5)], min_runner_pct := 15/100 }

/-- Position for the C6 scenario: de-risked earlier (67 of the original
100 tokens remain), stop moved to breakeven. -/
def pos_c6 : Position :=
  { pos_fix with is_derisked := true, remaining_tokens := 67,
                 stop_loss_price := 1, runner_peak_price := 3 }

/-- A de-risked runner with peak 12 and both tiers already taken, used for
the trailing-stop claim. -/
def pos_trail : Position :=
  { pos_fix with is_derisked := true, remaining_tokens := 67,
                 stop_loss_price := 1, runner_peak_price := 12,
                 tiers_hit := [5, 8] }

/-- C8 scenario, tick 1: the fresh position reaches 3x and de-risks. -/
def c8_step1 : Position × List ℚ := manage_tick st_fix sell_env_ok 0 pos_fix [] 3

/-- C8 scenario, tick 2: the 5x tier fires. -/
def c8_step2 : Position × List ℚ := manage_tick st_fix sell_env_ok 0 c8_step1.1 c8_step1.2 5

/-- C8 scenario, tick 3: the 8x tier fires. -/
def c8_step3 : Position × List ℚ := manage_tick st_fix sell_env_ok 0 c8_step2.1 c8_step2.2 8

/-- C8 scenario, single tick: the fresh position drops to 0.40 and the
base stop exits it in full. -/
def c8_stop : Position × List ℚ := manage_tick st_fix sell_env_ok 0 pos_fix [] (4/10)

/-- The position state after C8 tick 1. -/
def pos_d1 : Position :=
  { entry_price := 1, entry_time := 0, size_usd := 10, size_tokens := 100,
    rugcheck_score := .num 5, rugcheck_risks := flags_clear, rugcheck_lp_locked := true,
    remaining_tokens := 67, realized_pnl := 467/10, status := .active,
    stop_loss_price := 1, is_derisked := true, derisked_at_price := 3,
    derisked_amount := 33, runner_tokens := 67, runner_peak_price := 3,
    peak_price := 3, tiers_hit := [], last_partial_sell_time := 0 }

/-- The position state after C8 tick 2. -/
def pos_d2 : Position :=
  { pos_d1 with remaining_tokens := 27, realized_pnl := 907/10, peak_price := 5,
                tiers_hit := [5] }

/-- The position state after C8 tick 3. -/
def pos_d3 : Position :=
  { pos_d1 with remaining_tokens := 11, realized_pnl := 1347/10, peak_price := 8,
                tiers_hit := [8, 5] }

/-- The position state after the single C8 stop tick. -/
def pos_stopped : Position :=
  { pos_fix with remaining_tokens := 0, realized_pnl := 40,
                 status := PositionStatus.completed }

/-! ### Shared helper lemmas -/

/-- Truncation toward zero never exceeds a non-negative rational. -/
theorem pyInt_le_self (q : ℚ) (hq : 0 ≤ q) : (pyInt q : ℚ) ≤ q := by
  unfold pyInt
  rcases lt_trichotomy q.num 0 with h | h | h
  · exact absurd (Rat.num_nonneg.mpr hq) (not_le.mpr h)
  · have hq0 : q = 0 := by
      rw [← Rat.num_eq_zero]; exact h
    simp [h, hq0]
  · have hs : q.num.sign = 1 := Int.sign_eq_one_of_pos h
    rw [hs, one_mul]
    have hnum : ((q.num.natAbs : ℤ) : ℚ) = (q.num : ℚ) := by
      rw [Int.natAbs_of_nonneg (le_of_lt h)]
    have key : ((q.num.natAbs / q.den : ℕ) : ℚ) ≤ q := by
      calc ((q.num.natAbs / q.den : ℕ) : ℚ)
          ≤ (q.num.natAbs : ℚ) / (q.den : ℚ) := Nat.cast_div_le
        _ = (q.num : ℚ) / (q.den : ℚ) := by
            have habs : (q.num.natAbs : ℚ) = (q.num : ℚ) := by
              rw [Int.cast_natAbs]
              exact congrArg _ (abs_of_nonneg (le_of_lt h))
            rw [habs]
        _ = q := Rat.num_div_den q
    exact_mod_cast key

/-- Truncation toward zero coincides with the floor on non-negative
rationals. -/
theorem pyInt_eq_floor (q : ℚ) (hq : 0 ≤ q) : pyInt q = ⌊q⌋ := by
  unfold pyInt
  rcases lt_or_eq_of_le (Rat.num_nonneg.mpr hq) with h | h
  · rw [Int.sign_eq_one_of_pos h, one_mul, Rat.floor_def,
      ← Int.natAbs_of_nonneg (le_of_lt h)]
    exact (Int.natCast_ediv q.num.natAbs q.den).symm
  · have hq0 : q = 0 := by rw [← Rat.num_eq_zero]; omega
    simp [hq0]

/-- Membership through the insertion step of the stable sort. -/
theorem mem_insert_by_multiple (a x : ℚ × ℚ) (l : List (ℚ × ℚ)) :
    x ∈ insert_by_multiple a l ↔ x = a ∨ x ∈ l := by
  induction l with
  | nil => simp [insert_by_multiple]
  | cons b rest ih =>
    by_cases hb : b.1 ≤ a.1
    · rw [insert_by_multiple, if_pos hb]
      simp only [List.mem_cons, ih]
      tauto
    · rw [insert_by_multiple, if_neg hb]
      simp only [List.mem_cons]

/-- The insertion step preserves sortedness by the first component. -/
theorem insert_by_multiple_pairwise (a : ℚ × ℚ) (l : List (ℚ × ℚ))
    (hl : l.Pairwise fun x y => x.1 ≤ y.1) :
    (insert_by_multiple a l).Pairwise fun x y => x.1 ≤ y.1 := by
  induction l with
  | nil => simp [insert_by_multiple]
  | cons b rest ih =>
    rcases List.pairwise_cons.mp hl with ⟨hb, hrest⟩
    by_cases hba : b.1 ≤ a.1
    · rw [insert_by_multiple, if_pos hba]
      refine List.pairwise_cons.mpr ⟨?_, ih hrest⟩
      intro y hy
      rcases (mem_insert_by_multiple a y rest).mp hy with rfl | hy
      · exact hba
      · exact hb y hy
    · rw [insert_by_multiple, if_neg hba]
      refine List.pairwise_cons.mpr ⟨?_, hl⟩
      intro y hy
      rcases List.mem_cons.mp hy with rfl | hy
      · exact le_of_not_le hba
      · exact le_trans (le_of_not_le hba) (hb y hy)

/-- The sorted tier and zone lists are sorted by the first component. -/
theorem sort_by_multiple_pairwise (l : List (ℚ × ℚ)) :
    (sort_by_multiple l).Pairwise fun x y => x.1 ≤ y.1 := by
  suffices h : ∀ acc : List (ℚ × ℚ), acc.Pairwise (fun x y => x.1 ≤ y.1) →
      (l.foldl (fun acc a => insert_by_multiple a acc) acc).Pairwise
        (fun x y => x.1 ≤ y.1) by
    exact h [] (by simp)
  induction l with
  | nil => intro acc hacc; simpa using hacc
  | cons b rest ih =>
    intro acc hacc
    exact ih _ (insert_by_multiple_pairwise b acc hacc)

/-- Sorting preserves the members of the list. -/
theorem mem_sort_by_multiple (x : ℚ × ℚ) (l : List (ℚ × ℚ)) :
    x ∈ sort_by_multiple l ↔ x ∈ l := by
  suffices h : ∀ acc, (x ∈ l.foldl (fun acc a => insert_by_multiple a acc) acc
      ↔ x ∈ acc ∨ x ∈ l) by
    simpa using h []
  induction l with
  | nil => intro acc; simp
  | cons b rest ih =>
    intro acc
    rw [List.foldl_cons, ih, mem_insert_by_multiple]
    simp only [List.mem_cons]
    tauto

/-- The zone scan returns the percentage of the last zone of the list
whose threshold is reached, defaulting when none is reached. -/
theorem trail_pct_scan_eq (d cm : ℚ) (zones : List (ℚ × ℚ)) :
    trail_pct_scan d cm zones
      = ((zones.filter fun z => decide (z.1 ≤ cm)).getLast?.map Prod.snd).getD d := by
  induction zones generalizing d with
  | nil => simp [trail_pct_scan]
  | cons z zs ih =>
    have hstep : trail_pct_scan d cm (z :: zs)
        = trail_pct_scan (if z.1 ≤ cm then z.2 else d) cm zs := by
      simp [trail_pct_scan]
    rw [hstep]
    by_cases hz : z.1 ≤ cm
    · rw [if_pos hz, ih]
      have hf : (z :: zs).filter (fun w => decide (w.1 ≤ cm))
          = z :: zs.filter (fun w => decide (w.1 ≤ cm)) := by
        simp [List.filter_cons, hz]
      rw [hf]
      cases hzs : zs.filter (fun w => decide (w.1 ≤ cm)) with
      | nil => simp
      | cons a l =>
        rw [List.getLast?_cons_cons,
          List.getLast?_eq_getLast_of_ne_nil (l := a :: l) (by simp)]
        simp
    · rw [if_neg hz, ih]
      have hf : (z :: zs).filter (fun w => decide (w.1 ≤ cm))
          = zs.filter (fun w => decide (w.1 ≤ cm)) := by
        simp [List.filter_cons, hz]
      rw [hf]

/-- In a list sorted by the first component, the last element dominates
every member. -/
theorem pairwise_le_getLast :
    ∀ l : List (ℚ × ℚ), l.Pairwise (fun x y => x.1 ≤ y.1) →
      ∀ z : ℚ × ℚ, l.getLast? = some z → ∀ w ∈ l, w.1 ≤ z.1 := by
  intro l
  induction l with
  | nil => intro _ z hz; simp at hz
  | cons a rest ih =>
    intro hl z hz w hw
    rcases List.pairwise_cons.mp hl with ⟨ha, hrest⟩
    cases rest with
    | nil =>
      have hza : z = a := by simpa [List.getLast?] using hz.symm
      have hwa : w = a := by simpa using hw
      simp [hza, hwa]
    | cons b rest2 =>
      rw [List.getLast?_cons_cons] at hz
      have hzmem : z ∈ b :: rest2 := by
        rcases List.mem_getLast?_eq_getLast (l := b :: rest2) (x := z)
          (by simpa using hz.symm ▸ rfl) with ⟨hne, hzl⟩
        rw [hzl]
        exact List.getLast_mem hne
      rcases List.mem_cons.mp hw with rfl | hw
      · exact ha z hzmem
      · exact ih hrest z hz w hw

/-- Sum of exit fractions after appending one fill. -/
theorem exit_sum_append (l : List ℚ) (x : ℚ) : exit_sum (l ++ [x]) = exit_sum l + x := by
  unfold exit_sum
  rw [List.foldl_append]
  simp

/-- Break-even runs only touch the loss counters: the consecutive-loss
streak grows by the length of the run while the reset clock, the halt
deadline, the daily P&L and the position count are untouched. -/
theorem breakevens_spec (stats : PortfolioStats) (n : ℕ) :
    (breakevens n stats).consecutive_losses = stats.consecutive_losses + n
    ∧ (breakevens n stats).last_reset_time = stats.last_reset_time
    ∧ (breakevens n stats).trading_halted_until = stats.trading_halted_until
    ∧ (breakevens n stats).daily_realized_pnl = stats.daily_realized_pnl
    ∧ (breakevens n stats).active_positions = stats.active_positions := by
  induction n with
  | zero => simp [breakevens]
  | succ k ih =>
    obtain ⟨h1, h2, h3, h4, h5⟩ := ih
    refine ⟨?_, ?_, ?_, ?_, ?_⟩ <;>
      simp [breakevens, record_trade_result, h1, h2, h3, h4, h5]
    omega

/-! ### C4 -/

/-- C4: for every position, `calculate_stop_loss_price` returns
`entry_price * (1 - clamp(base_stop_pct * m, 0.10, 0.90))`, where the
multiplier m is 0.7 for a pending or n/a score, 1.4 for a numeric score
up to 3, 1.2 for a score in 4 to 6, 0.8 for a score of at least 8, is
replaced by 2.0 when the honeypot flag is present (1.8 for blacklist,
1.3 for high_tax, overriding the score multiplier), and is additionally
multiplied by 1.2 when the LP is not locked. -/
theorem C4_stop_loss_price (st : ExecutorSettings) (p : Position) :
    calculate_stop_loss_price st p
      = p.entry_price *
          (1 - max (1/10) (min (9/10) (st.stop_loss_base_pct * risk_multiplier p)))
    ∧ (p.rugcheck_score = RugScore.pending ∨ p.rugcheck_score = RugScore.na →
        base_score_multiplier p.rugcheck_score = 7/10)
    ∧ (∀ s : ℚ, s ≤ 3 → base_score_multiplier (RugScore.num s) = 14/10)
    ∧ (∀ s : ℚ, 4 ≤ s → s ≤ 6 → base_score_multiplier (RugScore.num s) = 12/10)
    ∧ (∀ s : ℚ, 8 ≤ s → base_score_multiplier (RugScore.num s) = 8/10)
    ∧ (p.rugcheck_risks.honeypot = true → flag_multiplier p = 2)
    ∧ (p.rugcheck_risks.honeypot = false → p.rugcheck_risks.blacklist = true →
        flag_multiplier p = 18/10)
    ∧ (p.rugcheck_risks.honeypot = false → p.rugcheck_risks.blacklist = false →
        p.rugcheck_risks.high_tax = true → flag_multiplier p = 13/10)
    ∧ (p.rugcheck_risks.honeypot = false → p.rugcheck_risks.blacklist = false →
        p.rugcheck_risks.high_tax = false →
        flag_multiplier p = base_score_multiplier p.rugcheck_score)
    ∧ (p.rugcheck_lp_locked = false → risk_multiplier p = flag_multiplier p * (12/10))
    ∧ (p.rugcheck_lp_locked = true → risk_multiplier p = flag_multiplier p) := by
  refine ⟨rfl, ?_, ?_, ?_, ?_, ?_, ?_, ?_, ?_, ?_, ?_⟩
  · rintro (h | h) <;> simp [h, base_score_multiplier]
  · intro s hs; simp [base_score_multiplier, score_branch, hs]
  · intro s hs4 hs6
    have h3 : ¬ s ≤ 3 := by linarith
    simp [base_score_multiplier, score_branch, h3, hs6]
  · intro s hs8
    have h3 : ¬ s ≤ 3 := by linarith
    have h6 : ¬ s ≤ 6 := by linarith
    simp [base_score_multiplier, score_branch, h3, h6, hs8]
  · intro h; simp [flag_multiplier, h]
  · intro h1 h2; simp [flag_multiplier, h1, h2]
  · intro h1 h2 h3; simp [flag_multiplier, h1, h2, h3]
  · intro h1 h2 h3; simp [flag_multiplier, h1, h2, h3]
  · intro h; simp [risk_multiplier, h]
  · intro h; simp [risk_multiplier, h]

/-- Witness for C4 at the concrete fixture: the clamp formula holds at
`pos_fix` and a score of 5 lands in the 1.2 bucket. -/
theorem C4_stop_loss_price_witness :
    calculate_stop_loss_price st_fix pos_fix
      = pos_fix.entry_price *
          (1 - max (1/10) (min (9/10) (st_fix.stop_loss_base_pct * risk_multiplier pos_fix)))
    ∧ base_score_multiplier (RugScore.num 5) = 12/10 := by
  have h := C4_stop_loss_price st_fix pos_fix
  exact ⟨h.1, h.2.2.2.1 5 (by norm_num) (by norm_num)⟩

/-! ### C9 -/

/-- C9: an n/a score is treated exactly like a pending score, and a
malformed (unparseable) score string is treated as the numeric score 10.0,
which lands in the safest bucket with multiplier 0.8. -/
theorem C9_malformed_score_is_safest (st : ExecutorSettings) (p : Position) :
    calculate_stop_loss_price st { p with rugcheck_score := RugScore.na }
      = calculate_stop_loss_price st { p with rugcheck_score := RugScore.pending }
    ∧ calculate_stop_loss_price st { p with rugcheck_score := RugScore.malformed }
      = calculate_stop_loss_price st { p with rugcheck_score := RugScore.num 10 }
    ∧ base_score_multiplier RugScore.malformed = 8/10
    ∧ base_score_multiplier RugScore.na = base_score_multiplier RugScore.pending := by
  refine ⟨?_, ?_, ?_, rfl⟩
  · simp [calculate_stop_loss_price, risk_multiplier, flag_multiplier, base_score_multiplier]
  · simp [calculate_stop_loss_price, risk_multiplier, flag_multiplier, base_score_multiplier]
  · norm_num [base_score_multiplier, score_branch]

/-! ### C10 -/

/-- C10: every trade with non-positive P&L, break-even included, counts as
a loss (losing_trades and consecutive_losses increment; the streak resets
only on strictly positive P&L), and a run of `consecutive_loss_limit`
break-even trades from a clean portfolio makes the next admission check
reject with the consecutive-loss reason. -/
theorem C10_breakeven_counts_as_loss
    (st : ExecutorSettings) (stats : PortfolioStats)
    (pnl now account_value quality : ℚ)
    (hpnl : pnl ≤ 0)
    (hclean : stats.consecutive_losses = 0)
    (hnoreset : ¬ 24 ≤ (now - stats.last_reset_time) / 3600)
    (hnohalt : stats.trading_halted_until ≤ now)
    (hdaily : -(account_value * st.daily_loss_limit_pct) ≤ stats.daily_realized_pnl) :
    (record_trade_result stats pnl).losing_trades = stats.losing_trades + 1
    ∧ (record_trade_result stats pnl).consecutive_losses = stats.consecutive_losses + 1
    ∧ (∀ g : ℚ, 0 < g → (record_trade_result stats g).consecutive_losses = 0)
    ∧ (can_open_position st now account_value quality
        (breakevens st.consecutive_loss_limit stats)).2
      = (false, AdmitReason.consecutive_loss) := by
  have hnp : ¬ 0 < pnl := not_lt.mpr hpnl
  refine ⟨?_, ?_, ?_, ?_⟩
  · simp [record_trade_result, hnp]
  · simp [record_trade_result, hnp]
  · intro g hg; simp [record_trade_result, hg]
  · obtain ⟨h1, h2, h3, h4, _⟩ := breakevens_spec stats st.consecutive_loss_limit
    have hr : should_reset_daily now (breakevens st.consecutive_loss_limit stats) = false := by
      simp [should_reset_daily, h2, hnoreset]
    have hh : is_trading_halted now (breakevens st.consecutive_loss_limit stats) = false := by
      simp [is_trading_halted, h3]
      exact hnohalt
    have hcl : st.consecutive_loss_limit
        ≤ (breakevens st.consecutive_loss_limit stats).consecutive_losses := by
      omega
    simp [can_open_position, hr, hh, h4, not_lt.mpr hdaily, hcl]

/-! ### C5 -/

/-- C5 counterexample: at a price below the disaster threshold (0.18 with
an 80 percent disaster stop from entry 1), the exit decision is a full
exit with reason STOP_LOSS, the very same triple returned by the ordinary
base stop (price 0.45 against stop 0.50) — not a distinct DISASTER
reason, which the ExitReason enumeration does not contain. -/
theorem C5_counterexample :
    (should_exit_position st_fix 0 pos_fix (18/100)).2 = (true, ExitReason.stop_loss, 1)
    ∧ (should_exit_position st_fix 0 pos_fix (45/100)).2
      = (true, ExitReason.stop_loss, 1) := by
  constructor
  · norm_num [should_exit_position, st_fix, pos_fix, eps]
  · norm_num [should_exit_position, st_fix, pos_fix, eps, get_time_stop_limit]

/-- C5 amended: for every active position at a price not above
`entry_price * (1 - disaster_stop_pct)` (with the boundary epsilon), the
exit decision is a full exit of fraction 1.0 whose reason is STOP_LOSS,
the same member used by the ordinary base stop; the source has no
DISASTER exit reason. -/
theorem C5_disaster_stop_full_exit (st : ExecutorSettings) (now : ℚ)
    (p : Position) (current_price : ℚ)
    (hactive : p.status = PositionStatus.active)
    (hdis : current_price ≤ p.entry_price * (1 - st.disaster_stop_pct) + eps) :
    should_exit_position st now p current_price = (p, (true, ExitReason.stop_loss, 1)) := by
  simp only [should_exit_position]
  simp [hactive, hdis]

/-- Witness for C5 amended at the concrete fixture. -/
theorem C5_disaster_stop_full_exit_witness :
    should_exit_position st_fix 0 pos_fix (19/100)
      = (pos_fix, (true, ExitReason.stop_loss, 1)) :=
  C5_disaster_stop_full_exit st_fix 0 pos_fix (19/100) rfl
    (by norm_num [st_fix, pos_fix, eps])

/-! ### C1 -/

/-- C1: across any sequence of deliveries, `_process_signal` runs at most
once per signal id — and never when the id is already durably recorded in
the processed store — while every delivered message is acked exactly
once. -/
theorem C1_at_most_once_processing (store : List ℕ) (ds : List Delivery) (sig : ℕ) :
    processed_count (signal_loop store ds).2 sig ≤ (if sig ∈ store then 0 else 1)
    ∧ acked_count (signal_loop store ds).2 = ds.length := by
  induction ds generalizing store with
  | nil => simp [signal_loop, processed_count, acked_count]
  | cons d ds ih =>
    by_cases hmem : d.signal_id ∈ store
    · obtain ⟨ih1, ih2⟩ := ih store
      simp only [signal_loop, signal_step, if_pos hmem]
      constructor
      · simpa [processed_count, List.count_cons] using ih1
      · simpa [acked_count] using ih2
    · obtain ⟨ih1, ih2⟩ := ih (d.signal_id :: store)
      simp only [signal_loop, signal_step, if_neg hmem]
      constructor
      · by_cases hsig : d.signal_id = sig
        · subst hsig
          simp only [processed_count, List.count_append] at ih1 ⊢
          have h0 : (signal_loop (d.signal_id :: store) ds).2.count
              (LoopEvent.processed d.signal_id) = 0 := by
            simpa using ih1
          simp [List.count_cons, hmem, h0]
        · have hiff : (sig ∈ d.signal_id :: store) ↔ sig ∈ store := by
            constructor
            · intro h
              rcases List.mem_cons.mp h with h | h
              · exact absurd h.symm hsig
              · exact h
            · exact fun h => List.mem_cons_of_mem _ h
          simp only [hiff] at ih1
          simp only [processed_count, List.count_append] at ih1 ⊢
          have hz : ([LoopEvent.processed d.signal_id, LoopEvent.marked d.signal_id,
              LoopEvent.acked d.msg_id].count (LoopEvent.processed sig)) = 0 := by
            simp [List.count_cons, hsig]
          rw [hz, Nat.zero_add]
          exact ih1
      · simpa [acked_count] using ih2

/-- Witness for C10: from a clean portfolio, one break-even trade counts
as a loss and four break-even trades trigger the consecutive-loss
rejection. -/
theorem C10_breakeven_counts_as_loss_witness :
    (record_trade_result stats_zero 0).losing_trades = stats_zero.losing_trades + 1
    ∧ (can_open_position st_fix 0 1000 (7/10)
        (breakevens st_fix.consecutive_loss_limit stats_zero)).2
      = (false, AdmitReason.consecutive_loss) := by
  have h := C10_breakeven_counts_as_loss st_fix stats_zero 0 0 1000 (7/10)
    le_rfl rfl (by norm_num [stats_zero]) (by norm_num [stats_zero])
    (by norm_num [stats_zero, st_fix])
  exact ⟨h.1, h.2.2.2⟩

/-! ### C2 -/

/-- C2 counterexample: when no route yields a quote, processing begins (the
quote is requested) and the signal is nevertheless acked, yet no FAILED
and no CONFIRMED transition is ever recorded — the ack is not preceded by
a terminal transition, contrary to the claim that every failure records
FAILED before the ack. -/
theorem C2_counterexample :
    BuyEvent.ack ∈ process_entry buy_env_no_quote
    ∧ BuyEvent.quote_requested ∈ process_entry buy_env_no_quote
    ∧ BuyEvent.transition OrderState.failed ∉ process_entry buy_env_no_quote
    ∧ BuyEvent.transition OrderState.confirmed ∉ process_entry buy_env_no_quote := by
  decide

/-- C2 amended: in every execution of the buy path, a durable QUOTED
transition precedes any signing, a durable SIGNED transition precedes any
submit, a CONFIRMED transition precedes the ack whenever the position was
opened, and the latency-gate abort records FAILED before the ack; the
other failure paths (no price, no quote, invalid quote, no swap
transaction, submission without signature) ack without any terminal
transition. -/
theorem C2_transition_ordering (env : BuyEnv) :
    (BuyEvent.sign ∈ process_entry env →
      event_before (BuyEvent.transition OrderState.quoted) BuyEvent.sign
        (process_entry env) = true)
    ∧ (BuyEvent.submit ∈ process_entry env →
      event_before (BuyEvent.transition OrderState.signed) BuyEvent.submit
        (process_entry env) = true)
    ∧ (BuyEvent.position_opened ∈ process_entry env →
      event_before (BuyEvent.transition OrderState.confirmed) BuyEvent.ack
        (process_entry env) = true)
    ∧ (BuyEvent.aborted_latency_inc ∈ process_entry env →
      event_before (BuyEvent.transition OrderState.failed) BuyEvent.ack
        (process_entry env) = true) := by
  obtain ⟨s, qd, qf, qv, sw, g, sg, sub⟩ := env
  by_cases hg : (100 : ℚ) < g <;>
    cases s <;> cases qd <;> cases qf <;> cases qv <;> cases sw <;> cases sg <;>
      simp [process_entry, execute_buy, event_before, hg]

/-- Witness for C2 amended on the all-success environment. -/
theorem C2_transition_ordering_witness :
    event_before (BuyEvent.transition OrderState.quoted) BuyEvent.sign
      (process_entry buy_env_fast) = true
    ∧ event_before (BuyEvent.transition OrderState.signed) BuyEvent.submit
      (process_entry buy_env_fast) = true := by
  have h := C2_transition_ordering buy_env_fast
  exact ⟨h.1 (by decide), h.2.1 (by decide)⟩

/-! ### C3 -/

/-- C3 counterexample: an order passes the 100 ms gate at 90 ms, is signed
and submitted, and the hot-path clock reads 110 ms at submission — the
submission completed with more than 100 ms since signal receipt, a
transaction submit occurred, and the latency-abort counter was never
incremented. -/
theorem C3_counterexample :
    BuyEvent.submit ∈ process_entry buy_env_fast
    ∧ BuyEvent.hot_path_observed 110 ∈ process_entry buy_env_fast
    ∧ (100 : ℚ) < 110
    ∧ BuyEvent.aborted_latency_inc ∉ process_entry buy_env_fast := by
  refine ⟨by decide, by decide, by norm_num, by decide⟩

/-- C3 amended: the latency-abort counter is incremented exactly when the
hot-path clock exceeds 100 ms at the pre-submit gate, and in that case a
FAILED transition is recorded before the ack and the order is never signed
or submitted. -/
theorem C3_latency_gate (env : BuyEnv) :
    (BuyEvent.aborted_latency_inc ∈ process_entry env →
      100 < env.gate_ms
      ∧ BuyEvent.transition OrderState.failed ∈ process_entry env
      ∧ BuyEvent.sign ∉ process_entry env
      ∧ BuyEvent.submit ∉ process_entry env
      ∧ event_before (BuyEvent.transition OrderState.failed) BuyEvent.ack
          (process_entry env) = true)
    ∧ (100 < env.gate_ms →
      BuyEvent.sign ∉ process_entry env ∧ BuyEvent.submit ∉ process_entry env)
    ∧ (env.gate_ms ≤ 100 → BuyEvent.aborted_latency_inc ∉ process_entry env) := by
  obtain ⟨s, qd, qf, qv, sw, g, sg, sub⟩ := env
  by_cases hg : (100 : ℚ) < g
  · cases s <;> cases qd <;> cases qf <;> cases qv <;> cases sw <;> cases sg <;>
      simp [process_entry, execute_buy, event_before, hg, not_le.mpr hg]
  · cases s <;> cases qd <;> cases qf <;> cases qv <;> cases sw <;> cases sg <;>
      simp [process_entry, execute_buy, event_before, hg]

/-- Witness for C3 amended on the gate-exceeding environment. -/
theorem C3_latency_gate_witness :
    BuyEvent.sign ∉ process_entry buy_env_slow
    ∧ BuyEvent.transition OrderState.failed ∈ process_entry buy_env_slow := by
  have h := (C3_latency_gate buy_env_slow).1 (by decide)
  exact ⟨h.2.2.1, h.2.1⟩

/-! ### C6 -/

/-- C6 counterexample: with a 15 percent minimum runner and a single 80
percent tier at 5x, a position de-risked down to 67 of its original 100
tokens is told to sell 80 percent — the cap does not fire since
1 − 0.80 = 0.20 is not below 0.15 — leaving 14 tokens, which is 14
percent of the original position, strictly below the configured floor. -/
theorem C6_counterexample :
    (should_exit_position st_c6 0 pos_c6 5).2 = (true, ExitReason.profit_take, 4/5)
    ∧ (manage_tick st_c6 sell_env_ok 0 pos_c6 [] 5).1.remaining_tokens = 14
    ∧ pos_c6.size_tokens = 100
    ∧ (14 : ℚ) / pos_c6.size_tokens < st_c6.min_runner_pct := by
  have h5 : pyInt (5 : ℚ) = 5 := by rw [pyInt_eq_floor _ (by norm_num)]; norm_num
  have h53 : pyInt ((268 : ℚ)/5) = 53 := by rw [pyInt_eq_floor _ (by norm_num)]; norm_num
  refine ⟨?_, ?_, by norm_num [pos_c6, pos_fix],
    by norm_num [pos_c6, pos_fix, st_c6, st_fix]⟩
  · norm_num [should_exit_position, st_c6, st_fix, pos_c6, pos_fix, flags_clear,
      get_time_stop_limit, find_tier, sort_by_multiple, insert_by_multiple, eps, h5]
  · norm_num [manage_tick, should_exit_position, execute_sell, mark_position_derisked,
      st_c6, st_fix, pos_c6, pos_fix, flags_clear, sell_env_ok,
      get_time_stop_limit, find_tier, sort_by_multiple, insert_by_multiple, eps, h5, h53]

/-- C6 amended: the cap in the tier scan guarantees the floor only
relative to the tokens remaining when the tier fires: every fraction the
scan returns is positive and leaves at least `min_runner_pct` of the
CURRENT remaining tokens, but amounts already sold by the de-risking and
by earlier tiers are not accounted for, so the remaining fraction of the
original position can fall below the floor. -/
theorem C6_runner_floor_is_relative (st : ExecutorSettings) (hit : List ℤ)
    (cm : ℚ) (tiers : List (ℚ × ℚ)) (mi : ℤ) (sp : ℚ)
    (h : find_tier st hit cm tiers = some (mi, sp)) :
    0 < sp ∧ st.min_runner_pct ≤ 1 - sp
    ∧ ∀ (env : SellEnv) (p : Position) (exits : List ℚ) (reason : ExitReason)
        (price : ℚ), 0 ≤ p.remaining_tokens →
        p.remaining_tokens * st.min_runner_pct
          ≤ (execute_sell env p exits sp reason price).1.remaining_tokens := by
  have key : ∀ tiers0 : List (ℚ × ℚ), find_tier st hit cm tiers0 = some (mi, sp) →
      0 < sp ∧ st.min_runner_pct ≤ 1 - sp := by
    intro tiers0
    induction tiers0 with
    | nil => intro h0; simp [find_tier] at h0
    | cons t rest ih =>
      obtain ⟨multiple, sell_pct⟩ := t
      intro h0
      simp only [find_tier] at h0
      split_ifs at h0 with hc hlow hpos hpos2
      · simp only [Option.some.injEq, Prod.mk.injEq] at h0
        obtain ⟨-, h2⟩ := h0
        subst h2
        have hgt : 0 < 1 - st.min_runner_pct := by
          by_contra hle
          push_neg at hle
          rw [max_eq_left hle] at hpos
          exact lt_irrefl 0 hpos
        rw [max_eq_right (le_of_lt hgt)]
        exact ⟨hgt, by linarith⟩
      · exact ih h0
      · simp only [Option.some.injEq, Prod.mk.injEq] at h0
        obtain ⟨-, h2⟩ := h0
        subst h2
        exact ⟨hpos2, not_lt.mp hlow⟩
      · exact ih h0
      · exact ih h0
  obtain ⟨hsp1, hsp2⟩ := key tiers h
  refine ⟨hsp1, hsp2, ?_⟩
  intro env p exits reason price hrem
  have hmin1 : st.min_runner_pct < 1 := by linarith
  have hrem_bound : p.remaining_tokens * st.min_runner_pct ≤ p.remaining_tokens := by
    calc p.remaining_tokens * st.min_runner_pct
        ≤ p.remaining_tokens * 1 := mul_le_mul_of_nonneg_left (le_of_lt hmin1) hrem
      _ = p.remaining_tokens := mul_one _
  have hple : (pyInt (p.remaining_tokens * sp) : ℚ) ≤ p.remaining_tokens * sp :=
    pyInt_le_self _ (mul_nonneg hrem (le_of_lt hsp1))
  have hmul : p.remaining_tokens * st.min_runner_pct
      ≤ p.remaining_tokens - p.remaining_tokens * sp := by
    have := mul_le_mul_of_nonneg_left hsp2 hrem
    rw [mul_one_sub] at this
    exact this
  simp only [execute_sell]
  split_ifs with g1 g2 g3 g4 g5 <;>
    simp [mark_position_derisked] <;>
    first
      | exact hrem_bound
      | linarith [hple, hmul]

/-- Witness for C6 amended: the 80 percent tier of the scenario settings
is returned by the scan and leaves at least 15 percent of the tokens that
remained when it fired. -/
theorem C6_runner_floor_is_relative_witness :
    (0 : ℚ) < 4/5 ∧ st_c6.min_runner_pct ≤ 1 - 4/5
    ∧ pos_c6.remaining_tokens * st_c6.min_runner_pct
      ≤ (execute_sell sell_env_ok pos_c6 [] (4/5)
          ExitReason.profit_take 5).1.remaining_tokens := by
  have h5 : pyInt (5 : ℚ) = 5 := by rw [pyInt_eq_floor _ (by norm_num)]; norm_num
  have hft : find_tier st_c6 [] 5 [(5, 4/5)] = some (5, 4/5) := by
    norm_num [find_tier, st_c6, st_fix, h5]
  have h := C6_runner_floor_is_relative st_c6 [] 5 [(5, 4/5)] 5 (4/5) hft
  exact ⟨h.1, h.2.1, h.2.2 sell_env_ok pos_c6 [] ExitReason.profit_take 5
    (by norm_num [pos_c6, pos_fix])⟩

/-! ### C7 -/

/-- C7: for a de-risked active position on which no earlier exit rule
fires, the trailing decision is a full TRAILING_STOP exit exactly when the
current price is at or below `max(runner_peak * (1 - trail_pct), entry)`
(with the boundary epsilon), that stop is never below the entry price,
and `trail_pct` is the percentage of the highest zone threshold reached —
the last element of the sorted zone list that the scan keeps — with
`runner_trailing_stop_pct` as the fallback when no zone applies. -/
theorem C7_runner_trailing_stop (st : ExecutorSettings) (now : ℚ) (p : Position)
    (current_price : ℚ)
    (hactive : p.status = PositionStatus.active)
    (hder : p.is_derisked = true)
    (hdis : ¬ current_price ≤ p.entry_price * (1 - st.disaster_stop_pct) + eps)
    (hbase : ¬ (p.stop_loss_price ≠ 0 ∧ 0 < p.stop_loss_price
        ∧ current_price ≤ p.stop_loss_price))
    (htime : ¬ (get_time_stop_limit st p ≤ (now - p.entry_time) / 60
        ∧ current_price / p.entry_price < 1 + st.time_stop_profit_target_pct))
    (hfind : find_tier st p.tiers_hit (current_price / p.entry_price)
        (sort_by_multiple st.profit_tiers) = none) :
    should_exit_position st now p current_price
      = ({ p with runner_peak_price := runner_peak_update p current_price },
          if current_price ≤ max (runner_peak_update p current_price
                * (1 - runner_trail_pct st (current_price / p.entry_price)))
              p.entry_price + eps
          then (true, ExitReason.trailing_stop, 1)
          else (false, ExitReason.manual, 0))
    ∧ p.entry_price ≤ max (runner_peak_update p current_price
        * (1 - runner_trail_pct st (current_price / p.entry_price))) p.entry_price
    ∧ (∀ z : ℚ × ℚ,
        ((sort_by_multiple st.trailing_zones).filter
            fun w => decide (w.1 ≤ current_price / p.entry_price)).getLast? = some z →
          runner_trail_pct st (current_price / p.entry_price) = z.2
          ∧ ∀ w ∈ st.trailing_zones,
              w.1 ≤ current_price / p.entry_price → w.1 ≤ z.1)
    ∧ (((sort_by_multiple st.trailing_zones).filter
          fun w => decide (w.1 ≤ current_price / p.entry_price)) = [] →
        runner_trail_pct st (current_price / p.entry_price)
          = st.runner_trailing_stop_pct) := by
  refine ⟨?_, le_max_right _ _, ?_, ?_⟩
  · simp only [should_exit_position]
    simp [hactive, hder, hdis, hbase, htime, hfind]
    split_ifs <;> rfl
  · intro z hz
    constructor
    · rw [runner_trail_pct, trail_pct_scan_eq, hz]
      simp
    · intro w hw hwle
      have hw2 : w ∈ (sort_by_multiple st.trailing_zones).filter
          (fun w => decide (w.1 ≤ current_price / p.entry_price)) := by
        rw [List.mem_filter]
        exact ⟨(mem_sort_by_multiple w _).mpr hw, by simpa using hwle⟩
      exact pairwise_le_getLast _ ((sort_by_multiple_pairwise _).filter _) z hz w hw2
  · intro hempty
    rw [runner_trail_pct, trail_pct_scan_eq, hempty]
    simp

/-- Witness for C7: the de-risked runner with peak 12 at price 9 (zone at
5x gives a 25 percent trail, stop 9) exits with reason TRAILING_STOP. -/
theorem C7_runner_trailing_stop_witness :
    should_exit_position st_fix 0 pos_trail 9
      = ({ pos_trail with runner_peak_price := runner_peak_update pos_trail 9 },
          if (9 : ℚ) ≤ max (runner_peak_update pos_trail 9
                * (1 - runner_trail_pct st_fix (9 / pos_trail.entry_price)))
              pos_trail.entry_price + eps
          then (true, ExitReason.trailing_stop, 1)
          else (false, ExitReason.manual, 0))
    ∧ pos_trail.entry_price ≤ max (runner_peak_update pos_trail 9
        * (1 - runner_trail_pct st_fix (9 / pos_trail.entry_price)))
        pos_trail.entry_price := by
  have h5 : pyInt (5 : ℚ) = 5 := by rw [pyInt_eq_floor _ (by norm_num)]; norm_num
  have h8 : pyInt (8 : ℚ) = 8 := by rw [pyInt_eq_floor _ (by norm_num)]; norm_num
  have h := C7_runner_trailing_stop st_fix 0 pos_trail 9
    (by norm_num [pos_trail, pos_fix])
    (by norm_num [pos_trail, pos_fix])
    (by norm_num [pos_trail, pos_fix, st_fix, eps])
    (by norm_num [pos_trail, pos_fix])
    (by norm_num [pos_trail, pos_fix, st_fix, get_time_stop_limit, flags_clear])
    (by norm_num [pos_trail, pos_fix, st_fix, find_tier, sort_by_multiple,
      insert_by_multiple, h5, h8])
  exact ⟨h.1, h.2.1⟩

/-! ### C8 -/

/-- C8 counterexample: a position stopped out in full is completed with an
empty exit-fill record (sum 0, not 1), and the de-risking partial plus two
60 percent tiers record fractions 0.33, 0.6 and 0.6 — summing to 1.53,
above 1 — because each partial fraction is measured against the tokens
remaining at the time of that sale. -/
theorem C8_counterexample :
    (c8_stop.1.status = PositionStatus.completed ∧ c8_stop.2 = []
      ∧ exit_sum c8_stop.2 = 0 ∧ exit_sum c8_stop.2 ≠ 1)
    ∧ (exit_sum c8_step3.2 = 153/100 ∧ ¬ exit_sum c8_step3.2 ≤ 1) := by
  have h5 : pyInt (5 : ℚ) = 5 := by rw [pyInt_eq_floor _ (by norm_num)]; norm_num
  have h33 : pyInt (33 : ℚ) = 33 := by rw [pyInt_eq_floor _ (by norm_num)]; norm_num
  have h100 : pyInt (100 : ℚ) = 100 := by rw [pyInt_eq_floor _ (by norm_num)]; norm_num
  have h40 : pyInt ((201 : ℚ)/5) = 40 := by rw [pyInt_eq_floor _ (by norm_num)]; norm_num
  have h16 : pyInt ((81 : ℚ)/5) = 16 := by rw [pyInt_eq_floor _ (by norm_num)]; norm_num
  have h8 : pyInt (8 : ℚ) = 8 := by rw [pyInt_eq_floor _ (by norm_num)]; norm_num
  have hstop : c8_stop = (pos_stopped, []) := by
    norm_num [c8_stop, manage_tick, should_exit_position, execute_sell, st_fix,
      pos_fix, pos_stopped, flags_clear, sell_env_ok, get_time_stop_limit, eps, h100]
  have h1 : c8_step1 = (pos_d1, [33/100]) := by
    norm_num [c8_step1, manage_tick, should_exit_position, execute_sell,
      mark_position_derisked, st_fix, pos_fix, pos_d1, flags_clear, sell_env_ok,
      get_time_stop_limit, find_tier, sort_by_multiple, insert_by_multiple, eps, h33]
  have h2 : c8_step2 = (pos_d2, [33/100, 3/5]) := by
    rw [c8_step2, h1]
    norm_num [manage_tick, should_exit_position, execute_sell,
      mark_position_derisked, st_fix, pos_d1, pos_d2, flags_clear, sell_env_ok,
      get_time_stop_limit, find_tier, sort_by_multiple, insert_by_multiple, eps, h5, h40]
  have h3 : c8_step3 = (pos_d3, [33/100, 3/5, 3/5]) := by
    rw [c8_step3, h2]
    norm_num [manage_tick, should_exit_position, execute_sell,
      mark_position_derisked, st_fix, pos_d1, pos_d2, pos_d3, flags_clear, sell_env_ok,
      get_time_stop_limit, find_tier, sort_by_multiple, insert_by_multiple, eps,
      h5, h8, h16]
  rw [hstop, h3]
  norm_num [exit_sum, pos_stopped, pos_fix]

/-- C8 amended: `record_exit` fills are appended exactly by the partial
branch of the sell path: a full exit (fraction 1) changes the status to
completed and appends nothing, a partial sell appends its fraction (of
the then-remaining tokens) to the record, and no other branch changes the
status. -/
theorem C8_fills_only_partial_sells (env : SellEnv) (p : Position) (exits : List ℚ)
    (pct : ℚ) (reason : ExitReason) (price : ℚ) :
    (pct = 1 → (execute_sell env p exits pct reason price).2 = exits)
    ∧ ((execute_sell env p exits pct reason price).2 = exits
        ∨ (pct ≠ 1 ∧ (execute_sell env p exits pct reason price).2 = exits ++ [pct]
            ∧ exit_sum (execute_sell env p exits pct reason price).2
              = exit_sum exits + pct))
    ∧ ((execute_sell env p exits pct reason price).1.status ≠ p.status →
        (execute_sell env p exits pct reason price).1.status = PositionStatus.completed
        ∧ pct = 1) := by
  simp only [execute_sell]
  split_ifs with g1 g2 g3 g4 g5 g6
  all_goals refine ⟨?_, ?_, ?_⟩
  all_goals first
    | exact fun _ => rfl
    | exact fun h => absurd h (by assumption)
    | exact Or.inr ⟨by assumption, rfl, exit_sum_append _ _⟩
    | exact Or.inl rfl
    | exact fun hne => absurd rfl hne
    | exact fun _ => ⟨rfl, by assumption⟩

/-- Witness for C8 amended: a full stop-loss exit appends no fill. -/
theorem C8_fills_only_partial_sells_witness :
    (execute_sell sell_env_ok pos_fix [] 1 ExitReason.stop_loss (4/10)).2 = [] :=
  (C8_fills_only_partial_sells sell_env_ok pos_fix [] 1 ExitReason.stop_loss (4/10)).1 rfl

end Exec
